import Mathlib

/-!
Verification of the agent-manager session orchestration in
`src/src/createAgentManager.ts` (second revision of the file, the one the
spec's claims cite: `getInitialMessages`, the returned object of
`createAgentManager` with `connect`, `disconnect`, `chat`, `rate`,
`deleteRate`, `speak`).

The embedding is shallow: each method body is transcribed as a pure Lean
function over an explicit state record (`AgentManagrItems`, named as in the
source).  Network calls, fresh random ids (`getRandom()`), timestamps
(`new Date().toISOString()`) and `Math.random()` are oracles passed as
parameters.  Side effects that the claims observe (REST calls, host
`onNewMessage` notifications, handle disconnects) are reified as trace
events returned next to the new state.
-/

set_option maxRecDepth 20000

namespace AgentsSdk

/-- Knowledge-base citation match attached to an assistant message
(`match.document_id`, `match.id` in the source). -/
structure KMatch where
  document_id : String
  id : String
deriving DecidableEq, Repr

/-- Role of a transcript message; the source uses the string literals
`'user'` and `'assistant'`. -/
inductive Role where
  | user
  | assistant
deriving DecidableEq, Repr

/-- A transcript message: `{id, role, content, created_at, matches?}`. -/
structure Message where
  id : String
  role : Role
  content : String
  created_at : String
  «matches» : Option (List KMatch) := none
deriving DecidableEq, Repr

/-- Server-assigned chat resource (only its id is observed by the manager). -/
structure Chat where
  id : String
deriving DecidableEq, Repr

/-- Handle to the media session (`StreamingManager`): the manager reads
`sessionId` and `streamId` from it. -/
structure StreamingManagerH where
  sessionId : String
  streamId : String
deriving DecidableEq, Repr

/-- Handle to the signaling socket (`SocketManager`); the manager only
stores it and calls `disconnect()` on it, so an opaque tag suffices. -/
structure SocketManagerH where
  tag : Nat
deriving DecidableEq, Repr

/-- The manager's mutable state, named as in the source
(`interface AgentManagrItems`): optional chat, optional streaming manager,
optional socket manager, and the message list. -/
structure AgentManagrItems where
  chat : Option Chat := none
  streamingManager : Option StreamingManagerH := none
  socketManager : Option SocketManagerH := none
  messages : List Message := []
deriving DecidableEq, Repr

/-- Chat progress discriminator delivered by the socket.  `part` models the
source's `ChatProgress.Partial` (incremental token), `answer` models
`ChatProgress.Answer` (final replacement). -/
inductive ChatProgress where
  | part
  | answer
deriving DecidableEq, Repr

/-- The socket progress handler installed by `connect()` (source lines
351-365 of the second revision): if the event's `data` has a `content`
field and the last message is an assistant message, mutate that last
message in place — concatenation for a partial event, replacement for an
answer event.  Messages are returned after the mutation; the handler keeps
no cursor of any kind.  `content = none` models `data` without a `content`
field (the `if ('content' in data)` guard). -/
def onSocketProgress (messages : List Message) (progress : ChatProgress)
    (content : Option String) : List Message :=
  match content with
  | none => messages
  | some c =>
    match messages.getLast? with
    | none => messages
    | some lastMessage =>
      if lastMessage.role = Role.assistant then
        messages.dropLast ++
          [{ lastMessage with
              content := if progress = ChatProgress.part then lastMessage.content ++ c else c }]
      else
        messages

/-- Fold a sequence of socket progress events over the message list. -/
def applyProgressEvents (messages : List Message)
    (events : List (ChatProgress × Option String)) : List Message :=
  events.foldl (fun msgs e => onSocketProgress msgs e.fst e.snd) messages

/-- Concrete seeded assistant message used in concrete runs below. -/
def greetingMsg : Message :=
  { id := "g1", role := Role.assistant, content := "Hi", created_at := "t0", «matches» := none }

/-- Agent knowledge reference (`agent.knowledge?.id`). -/
structure Knowledge where
  id : String
deriving DecidableEq, Repr

/-- The agent fields the manager reads: id, optional greetings list,
preview name (for the default greeting), optional knowledge reference. -/
structure Agent where
  id : String
  preview_name : String
  greetings : Option (List String) := none
  knowledge : Option Knowledge := none
deriving DecidableEq, Repr

/-- The templated default greeting built in `getInitialMessages` when the
agent has no greeting: the literal template string around
`agent.preview_name`. -/
def defaultGreeting (agent : Agent) : String :=
  "Hi! I\x27m " ++ agent.preview_name ++ ", welcome to agents. How can I help you?"

/-- `getInitialMessages(agent)` (source lines 294-311): one assistant
message whose content is `agent.greetings[randomIndex]` when the greetings
list is present and non-empty, and the templated default otherwise.
`randomIndex` is the oracle for `Math.floor(Math.random() * length)`; the
source guarantees it is `< length`, so theorems hypothesise that bound and
the `getD` fallback is never hit.  `gid` and `gts` are the oracles for
`getRandom()` and the current timestamp. -/
def getInitialMessages (agent : Agent) (randomIndex : Nat) (gid gts : String) :
    List Message :=
  let content : String :=
    match agent.greetings with
    | some gs => if gs.length > 0 then gs.getD randomIndex "" else defaultGreeting agent
    | none => defaultGreeting agent
  [{ id := gid, role := Role.assistant, content := content, created_at := gts,
     «matches» := none }]

/-- `connect()` (source lines 350-382), observed after both awaited steps
succeed: the freshly created socket manager, streaming manager and chat are
stored in `items`, `items.messages` is replaced by `getInitialMessages`,
and `onNewMessage` fires once with the new list (returned as the
notification trace).  The socket/stream/chat values produced by the awaited
calls are oracles. -/
def connect (agent : Agent) (items : AgentManagrItems) (sock : SocketManagerH)
    (sm : StreamingManagerH) (ch : Chat) (randomIndex : Nat) (gid gts : String) :
    AgentManagrItems × List (List Message) :=
  let msgs := getInitialMessages agent randomIndex gid gts
  ({ items with
      streamingManager := some sm
      socketManager := some sock
      chat := some ch
      messages := msgs },
   [msgs])

/-- Which handle `disconnect()` invoked `disconnect` on. -/
structure DisconnectCalls where
  socketDisconnected : Bool
  streamingDisconnected : Bool
deriving DecidableEq, Repr

/-- `disconnect()` (source lines 383-388): calls `disconnect()` on the
socket manager and the streaming manager when present (optional chaining)
and tracks analytics.  It assigns nothing: neither handle field is cleared
and `items.messages` is untouched, so the manager state is returned
unchanged. -/
def disconnect (items : AgentManagrItems) : AgentManagrItems × DisconnectCalls :=
  (items,
   { socketDisconnected := items.socketManager.isSome
     streamingDisconnected := items.streamingManager.isSome })

/-- REST `chat` response body: optional `result` text and optional
citation `matches`. -/
structure ChatResponse where
  result : Option String := none
  «matches» : Option (List KMatch) := none
deriving DecidableEq, Repr

/-- Error carried by a failing REST call. -/
structure RestErr where
  msg : String
deriving DecidableEq, Repr

/-- The errors `chat()` can throw: the three thrown `Error`s, plus
propagation of a failing REST call. -/
inductive ChatErr where
  | emptyMessage
  | chatNotInitialized
  | streamingNotInitialized
  | restFailed (e : RestErr)
deriving DecidableEq, Repr

/-- Observable events of one `chat()` call, in program order: transcript
pushes, the REST call with its payload, its resolution, and `onNewMessage`
notifications. -/
inductive ChatEv where
  | pushUserEv (m : Message)
  | restCallEv (sessionId streamId : String) (messages : List Message) (append : Bool)
  | restResolvedEv
  | pushAssistantEv (m : Message)
  | notifyEv (messages : List Message)
deriving DecidableEq, Repr

def Except.decEqImpl {ε α : Type} [DecidableEq ε] [DecidableEq α] :
    (x y : Except ε α) → Decidable (x = y)
  | Except.error a, Except.error b =>
    if h : a = b then isTrue (by rw [h]) else isFalse (by intro hc; cases hc; exact h rfl)
  | Except.error _, Except.ok _ => isFalse (by intro hc; cases hc)
  | Except.ok _, Except.error _ => isFalse (by intro hc; cases hc)
  | Except.ok a, Except.ok b =>
    if h : a = b then isTrue (by rw [h]) else isFalse (by intro hc; cases hc; exact h rfl)

instance {ε α : Type} [DecidableEq ε] [DecidableEq α] : DecidableEq (Except ε α) :=
  Except.decEqImpl

/-- Result of one `chat()` call: final state, returned value or thrown
error, and the event trace. -/
structure ChatOutcome where
  items : AgentManagrItems
  result : Except ChatErr ChatResponse
  trace : List ChatEv
deriving DecidableEq, Repr

/-- `chat(userMessage, append_chat)` (source lines 389-428), transcribed in
program order.  Checks: empty message, chat present, streaming manager
present.  Then it pushes the user message (fresh id `uid`, timestamp
`uts`), awaits the REST call (outcome given by the `rest` oracle; a failure
propagates with the user message already pushed), pushes the assistant
message built from `response.result ?? ''` and `response.matches` (fresh id
`aid`, timestamp `ats`), fires `onNewMessage` once, and returns the
response. -/
def chat (items : AgentManagrItems) (userMessage : String) (append_chat : Bool)
    (rest : Except RestErr ChatResponse) (uid uts aid ats : String) : ChatOutcome :=
  if userMessage.length = 0 then
    { items := items, result := Except.error ChatErr.emptyMessage, trace := [] }
  else
    match items.chat with
    | none => { items := items, result := Except.error ChatErr.chatNotInitialized, trace := [] }
    | some _ch =>
      match items.streamingManager with
      | none =>
        { items := items, result := Except.error ChatErr.streamingNotInitialized, trace := [] }
      | some sm =>
        let userMsg : Message :=
          { id := uid, role := Role.user, content := userMessage, created_at := uts,
            «matches» := none }
        let msgs1 := items.messages ++ [userMsg]
        match rest with
        | Except.error e =>
          { items := { items with messages := msgs1 }
            result := Except.error (ChatErr.restFailed e)
            trace := [ChatEv.pushUserEv userMsg,
                      ChatEv.restCallEv sm.sessionId sm.streamId msgs1 append_chat] }
        | Except.ok response =>
          let assistantMsg : Message :=
            { id := aid, role := Role.assistant, content := response.result.getD "",
              created_at := ats, «matches» := response.«matches» }
          let msgs2 := msgs1 ++ [assistantMsg]
          { items := { items with messages := msgs2 }
            result := Except.ok response
            trace := [ChatEv.pushUserEv userMsg,
                      ChatEv.restCallEv sm.sessionId sm.streamId msgs1 append_chat,
                      ChatEv.restResolvedEv,
                      ChatEv.pushAssistantEv assistantMsg,
                      ChatEv.notifyEv msgs2] }

/-- Whether a chat event is the REST call being issued. -/
def isRestCallEv : ChatEv → Bool
  | ChatEv.restCallEv _ _ _ _ => true
  | _ => false

/-- Whether a chat event is the REST call resolving. -/
def isRestResolvedEv : ChatEv → Bool
  | ChatEv.restResolvedEv => true
  | _ => false

/-- Whether a chat event is an `onNewMessage` notification. -/
def isNotifyEv : ChatEv → Bool
  | ChatEv.notifyEv _ => true
  | _ => false

/-- Whether a chat event is a transcript mutation (a push). -/
def isPushEv : ChatEv → Bool
  | ChatEv.pushUserEv _ => true
  | ChatEv.pushAssistantEv _ => true
  | _ => false

/-- Whether one `chat()` call issued the REST chat request. -/
def restCalled (o : ChatOutcome) : Bool :=
  o.trace.any isRestCallEv

/-- Whether any `onNewMessage` notification fired strictly before the REST
call resolved (the prefix of the trace up to `restResolvedEv`). -/
def notifiedBeforeRestResolved (tr : List ChatEv) : Bool :=
  (tr.takeWhile (fun e => !(isRestResolvedEv e))).any isNotifyEv

/-- The errors `rate()` can throw. -/
inductive RateErr where
  | chatNotInitialized
  | messageNotFound
deriving DecidableEq, Repr

/-- The payload `rate()` sends to the ratings API. -/
structure RatingPayload where
  agent_id : String
  knowledge_id : String
  chat_id : String
  message_id : String
  «matches» : List (String × String)
  score : Int
deriving DecidableEq, Repr

/-- Which ratings-API endpoint `rate()` routed to. -/
inductive RateCall where
  | createCall (payload : RatingPayload)
  | updateCall (rateId : String) (payload : RatingPayload)
deriving DecidableEq, Repr

/-- `rate(messageId, score, rateId?)` (source lines 429-467): looks the
message up first, then throws `Chat is not initialized` when no chat is
present, `Message not found` otherwise when the lookup failed; on success
builds the payload from the message's matches and routes to update when a
`rateId` was supplied, create otherwise. -/
def rate (agentInstance : Agent) (items : AgentManagrItems) (messageId : String)
    (score : Int) (rateId : Option String) : Except RateErr RateCall :=
  let message := items.messages.find? (fun m => m.id == messageId)
  match items.chat with
  | none => Except.error RateErr.chatNotInitialized
  | some ch =>
    match message with
    | none => Except.error RateErr.messageNotFound
    | some m =>
      let ms : List (String × String) :=
        (m.«matches».getD []).map (fun mt => (mt.document_id, mt.id))
      let payload : RatingPayload :=
        { agent_id := agentInstance.id
          knowledge_id := (agentInstance.knowledge.map Knowledge.id).getD ""
          chat_id := ch.id
          message_id := messageId
          «matches» := ms
          score := score }
      match rateId with
      | some rid => Except.ok (RateCall.updateCall rid payload)
      | none => Except.ok (RateCall.createCall payload)

/-- The REST call `deleteRate()` issues. -/
structure RatingDeleteCall where
  id : String
deriving DecidableEq, Repr

/-- `deleteRate(id)` (source lines 468-471): tracks analytics and returns
`ratingsAPI.delete(id)` directly — no precondition check of any kind, so it
shares `rate()`'s error type only to show it never produces an error. -/
def deleteRate (_items : AgentManagrItems) (id : String) :
    Except RateErr RatingDeleteCall :=
  Except.ok { id := id }

/-- Chat mode enumeration from the spec (section 3). -/
inductive ChatMode where
  | Functional
  | TextOnly
  | Maintenance
deriving DecidableEq, Repr

/-- Orchestrator state with a mode, as the spec describes it. -/
structure OrchestratorState where
  items : AgentManagrItems
  mode : ChatMode
deriving DecidableEq, Repr

/-- Observable events of one `changeMode` call, in order. -/
inductive ModeEv where
  | disconnectEv
  | setModeEv (m : ChatMode)
  | notifyModeEv (m : ChatMode)
deriving DecidableEq, Repr

/-- Modelled from the spec: `changeMode(mode)` and the `ChatMode` state
machine (spec sections 3, 4.4 and 8) are absent from
`src/src/createAgentManager.ts`, which exposes no mode state.  Per the
spec's words: no-op if the new mode equals the current mode (no disconnect,
no host notification); otherwise, if the new mode is not `Functional`, a
disconnect runs first — per section 4.4's `disconnect()` this clears the
Signaling Channel and Media Session handles and resets the transcript to
the seeded greeting — and only then is the mode updated and the host
notified.  `agent`, `randomIndex`, `gid`, `gts` feed the transcript reset. -/
def changeMode (st : OrchestratorState) (m : ChatMode) (agent : Agent)
    (randomIndex : Nat) (gid gts : String) : OrchestratorState × List ModeEv :=
  if m = st.mode then
    (st, [])
  else if m ≠ ChatMode.Functional then
    let items2 : AgentManagrItems :=
      { chat := st.items.chat
        socketManager := none
        streamingManager := none
        messages := getInitialMessages agent randomIndex gid gts }
    ({ items := items2, mode := m },
     [ModeEv.disconnectEv, ModeEv.setModeEv m, ModeEv.notifyModeEv m])
  else
    ({ st with mode := m }, [ModeEv.setModeEv m, ModeEv.notifyModeEv m])

/-! ### Helper lemmas on the socket progress handler -/

lemma onSocketProgress_part_getLast (msgs : List Message) (m : Message)
    (h : msgs.getLast? = some m) (hrole : m.role = Role.assistant) (c : String) :
    (onSocketProgress msgs ChatProgress.part (some c)).getLast? =
      some { m with content := m.content ++ c } := by
  simp only [onSocketProgress, h, hrole, if_true]
  simp [List.getLast?_concat]

lemma onSocketProgress_answer_getLast (msgs : List Message) (m : Message)
    (h : msgs.getLast? = some m) (hrole : m.role = Role.assistant) (c : String) :
    (onSocketProgress msgs ChatProgress.answer (some c)).getLast? =
      some { m with content := c } := by
  simp only [onSocketProgress, h, hrole, if_true]
  simp [List.getLast?_concat]

/-! ### C1 -/

/-- C1 (amended): for every message list whose last element is an assistant
message, applying `[partial "A", partial "B", answer "AB"]` through the
socket progress handler leaves the trailing message with content `"AB"`,
but a further `partial "C"` is NOT ignored: the handler keeps no closed
cursor, so the partial event concatenates onto the answered message and its
content becomes `"ABC"`. -/
theorem c1_partial_after_answer_mutates (msgs : List Message) (m : Message)
    (h : msgs.getLast? = some m) (hrole : m.role = Role.assistant) :
    (applyProgressEvents msgs
        [(ChatProgress.part, some "A"), (ChatProgress.part, some "B"),
         (ChatProgress.answer, some "AB")]).getLast?.map Message.content = some "AB" ∧
    (applyProgressEvents msgs
        [(ChatProgress.part, some "A"), (ChatProgress.part, some "B"),
         (ChatProgress.answer, some "AB"),
         (ChatProgress.part, some "C")]).getLast?.map Message.content = some "ABC" := by
  have h1 := onSocketProgress_part_getLast msgs m h hrole "A"
  have h2 := onSocketProgress_part_getLast _ _ h1 hrole "B"
  have h3 := onSocketProgress_answer_getLast _ _ h2 hrole "AB"
  have h4 := onSocketProgress_part_getLast _ _ h3 hrole "C"
  constructor
  · show (onSocketProgress (onSocketProgress (onSocketProgress msgs
        ChatProgress.part (some "A")) ChatProgress.part (some "B"))
        ChatProgress.answer (some "AB")).getLast?.map Message.content = some "AB"
    rw [h3]
    rfl
  · show (onSocketProgress (onSocketProgress (onSocketProgress (onSocketProgress msgs
        ChatProgress.part (some "A")) ChatProgress.part (some "B"))
        ChatProgress.answer (some "AB")) ChatProgress.part (some "C")).getLast?.map
        Message.content = some "ABC"
    rw [h4]
    rfl

/-- C1 witness: the amended statement at the concrete one-element
transcript holding the seeded assistant greeting. -/
theorem c1_partial_after_answer_mutates_witness :
    (applyProgressEvents [greetingMsg]
        [(ChatProgress.part, some "A"), (ChatProgress.part, some "B"),
         (ChatProgress.answer, some "AB")]).getLast?.map Message.content = some "AB" ∧
    (applyProgressEvents [greetingMsg]
        [(ChatProgress.part, some "A"), (ChatProgress.part, some "B"),
         (ChatProgress.answer, some "AB"),
         (ChatProgress.part, some "C")]).getLast?.map Message.content = some "ABC" :=
  c1_partial_after_answer_mutates [greetingMsg] greetingMsg rfl rfl

/-- C1 counterexample: at the concrete transcript `[greetingMsg]`, after
`[partial "A", partial "B", answer "AB"]` a further `partial "C"` changes
the answered message's content to `"ABC"`, so it does not stay `"AB"` as
the claim states. -/
theorem c1_closed_cursor_counterexample :
    (applyProgressEvents [greetingMsg]
        [(ChatProgress.part, some "A"), (ChatProgress.part, some "B"),
         (ChatProgress.answer, some "AB"),
         (ChatProgress.part, some "C")]).map Message.content = ["ABC"] ∧
    ("ABC" : String) ≠ "AB" := by
  constructor
  · rfl
  · decide

/-! ### Concrete fixtures for witnesses and counterexamples -/

/-- A fully initialized manager state: chat, streaming manager and socket
manager present, seeded greeting in the transcript. -/
def itemsReady : AgentManagrItems :=
  { chat := some { id := "chat1" }
    streamingManager := some { sessionId := "sess1", streamId := "stream1" }
    socketManager := some { tag := 0 }
    messages := [greetingMsg] }

/-- A text of exactly 800 characters. -/
def longText : String := String.mk (List.replicate 800 'a')

/-- A successful REST chat response. -/
def resp0 : ChatResponse := { result := some "world", «matches» := none }

/-! ### C2 -/

/-- C2 (amended): `chat('')` always fails with the validation error, issues
no REST call and leaves the state unchanged; but the code has no upper
length bound: a text of length ≥ 800 with a Chat and a Media Session
present is not rejected — the REST chat call is issued. -/
theorem c2_only_empty_rejected :
    (∀ (items : AgentManagrItems) (append : Bool) (rest : Except RestErr ChatResponse)
        (uid uts aid ats : String),
      (chat items "" append rest uid uts aid ats).result
          = Except.error ChatErr.emptyMessage ∧
      (chat items "" append rest uid uts aid ats).items = items ∧
      restCalled (chat items "" append rest uid uts aid ats) = false) ∧
    (∀ (items : AgentManagrItems) (s : String) (append : Bool)
        (rest : Except RestErr ChatResponse) (uid uts aid ats : String)
        (c : Chat) (sm : StreamingManagerH),
      800 ≤ s.length → items.chat = some c → items.streamingManager = some sm →
      restCalled (chat items s append rest uid uts aid ats) = true) := by
  constructor
  · intro items append rest uid uts aid ats
    exact ⟨rfl, rfl, rfl⟩
  · intro items s append rest uid uts aid ats c sm hlen hc hsm
    have hne : ¬ s.length = 0 := by omega
    cases rest with
    | error e => simp [chat, hne, hc, hsm, restCalled, isRestCallEv]
    | ok response => simp [chat, hne, hc, hsm, restCalled, isRestCallEv]

/-- C2 witness: the empty string is rejected without a REST call, and the
800-character text goes through to the REST call on the initialized state. -/
theorem c2_only_empty_rejected_witness :
    restCalled (chat itemsReady "" false (Except.ok resp0) "u1" "t1" "a1" "t2") = false ∧
    restCalled (chat itemsReady longText false (Except.ok resp0) "u1" "t1" "a1" "t2") = true :=
  ⟨(c2_only_empty_rejected.1 itemsReady false (Except.ok resp0) "u1" "t1" "a1" "t2").2.2,
   c2_only_empty_rejected.2 itemsReady longText false (Except.ok resp0) "u1" "t1" "a1" "t2"
     { id := "chat1" } { sessionId := "sess1", streamId := "stream1" }
     (by decide) rfl rfl⟩

/-- C2 counterexample: on the initialized state, `chat` applied to a text
of length 800 does not fail with a validation error — it issues the REST
call and returns the REST response. -/
theorem c2_long_text_counterexample :
    800 ≤ longText.length ∧
    restCalled (chat itemsReady longText false (Except.ok resp0) "u1" "t1" "a1" "t2") = true ∧
    (chat itemsReady longText false (Except.ok resp0) "u1" "t1" "a1" "t2").result
      = Except.ok resp0 := by
  exact ⟨by decide, rfl, rfl⟩

/-! ### C3 -/

/-- C3 (confirmed): for every text of valid length (1 ≤ length < 800),
with a Chat and a Media Session present and a successful REST response, one
`chat` call appends exactly two messages: first a user message carrying the
input text, then an assistant message carrying the response's result
(`result ?? ''`) and its citation matches. -/
theorem c3_chat_appends_user_then_assistant (items : AgentManagrItems) (s : String)
    (append : Bool) (response : ChatResponse) (uid uts aid ats : String)
    (c : Chat) (sm : StreamingManagerH)
    (h1 : 1 ≤ s.length) (h2 : s.length < 800)
    (hc : items.chat = some c) (hsm : items.streamingManager = some sm) :
    (chat items s append (Except.ok response) uid uts aid ats).items.messages =
      items.messages ++
        [{ id := uid, role := Role.user, content := s, created_at := uts,
           «matches» := none },
         { id := aid, role := Role.assistant, content := response.result.getD "",
           created_at := ats, «matches» := response.«matches» }] ∧
    (chat items s append (Except.ok response) uid uts aid ats).result
      = Except.ok response := by
  have hne : ¬ s.length = 0 := by omega
  simp [chat, hne, hc, hsm]

/-- C3 witness: the concrete run of section 8's scenario — `chat("hello")`
with REST result `"world"` appends the user and assistant messages after
the greeting. -/
theorem c3_chat_appends_user_then_assistant_witness :
    (chat itemsReady "hello" false (Except.ok resp0) "u1" "t1" "a1" "t2").items.messages =
      itemsReady.messages ++
        [{ id := "u1", role := Role.user, content := "hello", created_at := "t1",
           «matches» := none },
         { id := "a1", role := Role.assistant, content := "world", created_at := "t2",
           «matches» := none }] ∧
    (chat itemsReady "hello" false (Except.ok resp0) "u1" "t1" "a1" "t2").result
      = Except.ok resp0 :=
  c3_chat_appends_user_then_assistant itemsReady "hello" false resp0 "u1" "t1" "a1" "t2"
    { id := "chat1" } { sessionId := "sess1", streamId := "stream1" }
    (by decide) (by decide) rfl rfl

/-! ### C4 -/

/-- C4 (confirmed): if the REST chat call fails, the error propagates to
the caller (wrapped as the rethrown REST failure) and the optimistically
appended user message stays: the transcript after the failed call is the
transcript before plus exactly one user message. -/
theorem c4_rest_failure_keeps_user_message (items : AgentManagrItems) (s : String)
    (append : Bool) (e : RestErr) (uid uts aid ats : String)
    (c : Chat) (sm : StreamingManagerH)
    (h1 : 1 ≤ s.length)
    (hc : items.chat = some c) (hsm : items.streamingManager = some sm) :
    (chat items s append (Except.error e) uid uts aid ats).items.messages =
      items.messages ++
        [{ id := uid, role := Role.user, content := s, created_at := uts,
           «matches» := none }] ∧
    (chat items s append (Except.error e) uid uts aid ats).result
      = Except.error (ChatErr.restFailed e) := by
  have hne : ¬ s.length = 0 := by omega
  simp [chat, hne, hc, hsm]

/-- C4 witness: a concrete failing REST call leaves exactly the appended
user message behind and surfaces the failure. -/
theorem c4_rest_failure_keeps_user_message_witness :
    (chat itemsReady "hello" false (Except.error { msg := "boom" }) "u1" "t1" "a1" "t2").items.messages =
      itemsReady.messages ++
        [{ id := "u1", role := Role.user, content := "hello", created_at := "t1",
           «matches» := none }] ∧
    (chat itemsReady "hello" false (Except.error { msg := "boom" }) "u1" "t1" "a1" "t2").result
      = Except.error (ChatErr.restFailed { msg := "boom" }) :=
  c4_rest_failure_keeps_user_message itemsReady "hello" false { msg := "boom" }
    "u1" "t1" "a1" "t2" { id := "chat1" } { sessionId := "sess1", streamId := "stream1" }
    (by decide) rfl rfl

/-! ### C5 -/

lemma getInitialMessages_single (agent : Agent) (randomIndex : Nat) (gid gts : String)
    (hidx : ∀ gs, agent.greetings = some gs → 0 < gs.length → randomIndex < gs.length) :
    (getInitialMessages agent randomIndex gid gts).length = 1 ∧
    ∀ m ∈ getInitialMessages agent randomIndex gid gts,
      m.role = Role.assistant ∧
      ((∃ gs, agent.greetings = some gs ∧ 0 < gs.length ∧ m.content ∈ gs) ∨
        m.content = defaultGreeting agent) := by
  refine ⟨rfl, ?_⟩
  intro m hm
  cases hg : agent.greetings with
  | none =>
    simp [getInitialMessages, hg] at hm
    subst hm
    exact ⟨rfl, Or.inr rfl⟩
  | some gs =>
    by_cases hl : 0 < gs.length
    · simp [getInitialMessages, hg, hl] at hm
      subst hm
      refine ⟨rfl, Or.inl ⟨gs, rfl, hl, ?_⟩⟩
      have hr : randomIndex < gs.length := hidx gs hg hl
      show gs[randomIndex]?.getD "" ∈ gs
      rw [List.getElem?_eq_getElem hr]
      exact List.getElem_mem hr
    · simp [getInitialMessages, hg, hl] at hm
      subst hm
      exact ⟨rfl, Or.inr rfl⟩

/-- C5 (confirmed): after a successful `connect()`, the transcript holds
exactly one message; it is an assistant message whose content is one of
`agent.greetings` when that list is present and non-empty, and the
templated default built from `agent.preview_name` otherwise.  The
hypothesis bounds the `Math.random()` index oracle as the source
guarantees. -/
theorem c5_connect_transcript_single_greeting (agent : Agent) (items : AgentManagrItems)
    (sock : SocketManagerH) (sm : StreamingManagerH) (ch : Chat) (randomIndex : Nat)
    (gid gts : String)
    (hidx : ∀ gs, agent.greetings = some gs → 0 < gs.length → randomIndex < gs.length) :
    ((connect agent items sock sm ch randomIndex gid gts).fst.messages).length = 1 ∧
    ∀ m ∈ (connect agent items sock sm ch randomIndex gid gts).fst.messages,
      m.role = Role.assistant ∧
      ((∃ gs, agent.greetings = some gs ∧ 0 < gs.length ∧ m.content ∈ gs) ∨
        m.content = defaultGreeting agent) :=
  getInitialMessages_single agent randomIndex gid gts hidx

/-- An agent with a single greeting, used for concrete runs. -/
def agentHi : Agent :=
  { id := "agent1", preview_name := "Eve", greetings := some ["Hi"], knowledge := none }

/-- C5 witness: connecting with the one-greeting agent seeds exactly the
greeting message, which satisfies the stated shape. -/
theorem c5_connect_transcript_single_greeting_witness :
    ((connect agentHi {} { tag := 0 } { sessionId := "sess1", streamId := "stream1" }
        { id := "chat1" } 0 "g1" "t0").fst.messages).length = 1 ∧
    (greetingMsg.role = Role.assistant ∧
      ((∃ gs, agentHi.greetings = some gs ∧ 0 < gs.length ∧ greetingMsg.content ∈ gs) ∨
        greetingMsg.content = defaultGreeting agentHi)) :=
  ⟨(c5_connect_transcript_single_greeting agentHi {} { tag := 0 }
      { sessionId := "sess1", streamId := "stream1" } { id := "chat1" } 0 "g1" "t0"
      (fun _ _ hl => hl)).1,
   (c5_connect_transcript_single_greeting agentHi {} { tag := 0 }
      { sessionId := "sess1", streamId := "stream1" } { id := "chat1" } 0 "g1" "t0"
      (fun _ _ hl => hl)).2 greetingMsg (by decide)⟩

/-! ### C6 -/

/-- C6 (amended): `disconnect()` calls `disconnect` on whichever of the
socket and streaming handles is present, but it clears neither handle and
does not reset the transcript — the manager state is returned unchanged.
Because the state is unchanged, running `disconnect()` twice has the same
effect on the manager state as running it once. -/
theorem c6_disconnect_leaves_state_unchanged (items : AgentManagrItems) :
    (disconnect items).fst = items ∧
    (disconnect (disconnect items).fst).fst = (disconnect items).fst ∧
    (disconnect items).snd.socketDisconnected = items.socketManager.isSome ∧
    (disconnect items).snd.streamingDisconnected = items.streamingManager.isSome :=
  ⟨rfl, rfl, rfl, rfl⟩

/-- C6 counterexample: on a state with both handles present, the handles
are still present after `disconnect()` completes, contradicting the claim
that they become absent. -/
theorem c6_handles_not_cleared_counterexample :
    ((disconnect itemsReady).fst.socketManager).isSome = true ∧
    ((disconnect itemsReady).fst.streamingManager).isSome = true ∧
    (disconnect itemsReady).fst.messages = itemsReady.messages :=
  ⟨rfl, rfl, rfl⟩

/-! ### C7 -/

/-- C7 (amended): with a Chat present, `rate` on a message id absent from
the transcript fails with the message-not-found error; with no Chat it
fails with the chat-not-initialized error; and when both conditions hold,
the chat-not-initialized error takes priority because the chat check runs
first. -/
theorem c7_rate_error_priority (agentInstance : Agent) (items : AgentManagrItems)
    (messageId : String) (score : Int) (rateId : Option String) :
    (∀ c, items.chat = some c →
      items.messages.find? (fun m => m.id == messageId) = none →
      rate agentInstance items messageId score rateId
        = Except.error RateErr.messageNotFound) ∧
    (items.chat = none →
      rate agentInstance items messageId score rateId
        = Except.error RateErr.chatNotInitialized) := by
  constructor
  · intro c hc hfind
    simp [rate, hc, hfind]
  · intro hc
    simp [rate, hc]

/-- The empty manager state: no chat, no handles, empty transcript. -/
def itemsNoChat : AgentManagrItems := {}

/-- C7 witness: unknown id with a Chat present gives the not-found error;
no Chat gives the not-initialized error. -/
theorem c7_rate_error_priority_witness :
    rate agentHi itemsReady "nope" 1 none = Except.error RateErr.messageNotFound ∧
    rate agentHi itemsNoChat "nope" 1 none = Except.error RateErr.chatNotInitialized :=
  ⟨(c7_rate_error_priority agentHi itemsReady "nope" 1 none).1 { id := "chat1" } rfl
      (by decide),
   (c7_rate_error_priority agentHi itemsNoChat "nope" 1 none).2 rfl⟩

/-- C7 counterexample: when both conditions hold — no Chat and an id
absent from the (empty) transcript — `rate` fails with the
chat-not-initialized error, not the not-found error the claim gives
priority to. -/
theorem c7_priority_counterexample :
    itemsNoChat.chat = none ∧
    itemsNoChat.messages.find? (fun m => m.id == "nope") = none ∧
    rate agentHi itemsNoChat "nope" 1 none = Except.error RateErr.chatNotInitialized ∧
    (Except.error RateErr.chatNotInitialized : Except RateErr RateCall) ≠
      Except.error RateErr.messageNotFound :=
  ⟨rfl, rfl, rfl, by decide⟩

/-! ### C8 -/

/-- C8 (amended): inside `chat()` the host is notified exactly once per
successful call, by a single `onNewMessage` that fires after both the user
and assistant appends — after the REST call resolves, not synchronously at
user-append time. On a failing REST call the transcript mutates once (the
optimistic user append) and no notification fires at all. -/
theorem c8_notification_timing (items : AgentManagrItems) (s : String) (append : Bool)
    (uid uts aid ats : String) (c : Chat) (sm : StreamingManagerH)
    (h1 : 1 ≤ s.length) (hc : items.chat = some c)
    (hsm : items.streamingManager = some sm) :
    (∀ response : ChatResponse,
      notifiedBeforeRestResolved
          (chat items s append (Except.ok response) uid uts aid ats).trace = false ∧
      (chat items s append (Except.ok response) uid uts aid ats).trace.countP
          (fun ev => isNotifyEv ev) = 1 ∧
      (chat items s append (Except.ok response) uid uts aid ats).trace.getLast? =
        some (ChatEv.notifyEv
          (chat items s append (Except.ok response) uid uts aid ats).items.messages)) ∧
    (∀ e : RestErr,
      (chat items s append (Except.error e) uid uts aid ats).trace.countP
          (fun ev => isPushEv ev) = 1 ∧
      (chat items s append (Except.error e) uid uts aid ats).trace.countP
          (fun ev => isNotifyEv ev) = 0) := by
  have hne : ¬ s.length = 0 := by omega
  constructor
  · intro response
    refine ⟨?_, ?_, ?_⟩ <;>
      simp [chat, hne, hc, hsm, notifiedBeforeRestResolved, isNotifyEv, isRestResolvedEv,
        isPushEv, List.countP_cons, List.countP_nil]
  · intro e
    constructor <;>
      simp [chat, hne, hc, hsm, isNotifyEv, isPushEv, List.countP_cons, List.countP_nil]

/-- C8 witness: the amended timing facts at the concrete successful and
failing runs of `chat("hello")` on the initialized state. -/
theorem c8_notification_timing_witness :
    (notifiedBeforeRestResolved
        (chat itemsReady "hello" false (Except.ok resp0) "u1" "t1" "a1" "t2").trace = false ∧
      (chat itemsReady "hello" false (Except.ok resp0) "u1" "t1" "a1" "t2").trace.countP
          (fun ev => isNotifyEv ev) = 1 ∧
      (chat itemsReady "hello" false (Except.ok resp0) "u1" "t1" "a1" "t2").trace.getLast? =
        some (ChatEv.notifyEv
          (chat itemsReady "hello" false (Except.ok resp0) "u1" "t1" "a1" "t2").items.messages)) ∧
    ((chat itemsReady "hello" false (Except.error { msg := "boom" }) "u1" "t1" "a1" "t2").trace.countP
        (fun ev => isPushEv ev) = 1 ∧
      (chat itemsReady "hello" false (Except.error { msg := "boom" }) "u1" "t1" "a1" "t2").trace.countP
        (fun ev => isNotifyEv ev) = 0) :=
  ⟨(c8_notification_timing itemsReady "hello" false "u1" "t1" "a1" "t2"
      { id := "chat1" } { sessionId := "sess1", streamId := "stream1" }
      (by decide) rfl rfl).1 resp0,
   (c8_notification_timing itemsReady "hello" false "u1" "t1" "a1" "t2"
      { id := "chat1" } { sessionId := "sess1", streamId := "stream1" }
      (by decide) rfl rfl).2 { msg := "boom" }⟩

/-- C8 counterexample: in the concrete successful run no notification
fires before the REST call resolves (so the user append is not notified
synchronously at append time), and in the concrete failing run the
transcript mutates once with zero notifications, so not every mutation is
followed by one. -/
theorem c8_no_sync_notify_counterexample :
    notifiedBeforeRestResolved
        (chat itemsReady "hello" false (Except.ok resp0) "u1" "t1" "a1" "t2").trace = false ∧
    (chat itemsReady "hello" false (Except.error { msg := "boom" }) "u1" "t1" "a1" "t2").trace.countP
        (fun ev => isPushEv ev) = 1 ∧
    (chat itemsReady "hello" false (Except.error { msg := "boom" }) "u1" "t1" "a1" "t2").trace.countP
        (fun ev => isNotifyEv ev) = 0 := by
  decide

/-! ### C9 -/

/-- C9 (confirmed against the spec-modelled `changeMode`): changing to the
current mode is a no-op — same state, no disconnect, no notification; and
changing to a different, non-`Functional` mode clears the Signaling Channel
and Media Session handles, sets the mode, and notifies the host, with the
disconnect event strictly before the mode-set and notification events in
the emitted order. -/
theorem c9_changeMode_gating (st : OrchestratorState) (m : ChatMode) (agent : Agent)
    (randomIndex : Nat) (gid gts : String) :
    (m = st.mode → changeMode st m agent randomIndex gid gts = (st, [])) ∧
    (m ≠ st.mode → m ≠ ChatMode.Functional →
      (changeMode st m agent randomIndex gid gts).fst.items.socketManager = none ∧
      (changeMode st m agent randomIndex gid gts).fst.items.streamingManager = none ∧
      (changeMode st m agent randomIndex gid gts).fst.mode = m ∧
      (changeMode st m agent randomIndex gid gts).snd =
        [ModeEv.disconnectEv, ModeEv.setModeEv m, ModeEv.notifyModeEv m]) := by
  constructor
  · intro h
    simp [changeMode, h]
  · intro h1 h2
    refine ⟨?_, ?_, ?_, ?_⟩ <;> simp [changeMode, h1, h2]

/-- C9 witness: on a Functional state, changing to Functional is a no-op
and changing to TextOnly clears both handles, sets the mode and notifies,
disconnect first. -/
theorem c9_changeMode_gating_witness :
    changeMode { items := itemsReady, mode := ChatMode.Functional } ChatMode.Functional
        agentHi 0 "g1" "t0"
      = ({ items := itemsReady, mode := ChatMode.Functional }, []) ∧
    ((changeMode { items := itemsReady, mode := ChatMode.Functional } ChatMode.TextOnly
        agentHi 0 "g1" "t0").fst.items.socketManager = none ∧
      (changeMode { items := itemsReady, mode := ChatMode.Functional } ChatMode.TextOnly
        agentHi 0 "g1" "t0").fst.items.streamingManager = none ∧
      (changeMode { items := itemsReady, mode := ChatMode.Functional } ChatMode.TextOnly
        agentHi 0 "g1" "t0").fst.mode = ChatMode.TextOnly ∧
      (changeMode { items := itemsReady, mode := ChatMode.Functional } ChatMode.TextOnly
        agentHi 0 "g1" "t0").snd =
        [ModeEv.disconnectEv, ModeEv.setModeEv ChatMode.TextOnly,
         ModeEv.notifyModeEv ChatMode.TextOnly]) :=
  ⟨(c9_changeMode_gating { items := itemsReady, mode := ChatMode.Functional }
      ChatMode.Functional agentHi 0 "g1" "t0").1 rfl,
   (c9_changeMode_gating { items := itemsReady, mode := ChatMode.Functional }
      ChatMode.TextOnly agentHi 0 "g1" "t0").2 (by decide) (by decide)⟩

/-! ### C10 -/

/-- C10 (confirmed): for every state and id, `deleteRate(id)` issues the
ratings delete call and returns its result with no precondition check — in
particular it succeeds on states with no Chat and no Media Session, and
never produces the not-initialized error. -/
theorem c10_deleteRate_unconditional (items : AgentManagrItems) (id : String) :
    deleteRate items id = Except.ok { id := id } :=
  rfl

end AgentsSdk
